import Mathlib

/-!
Verification development for the Univer custom-plugins API server
(`api-server/app.py`): a template store persisted as a single JSON file,
guarded by one process-wide lock, with write-to-temp-then-atomic-rename
persistence, plus read-only dropdown reference data.

The Python code is shallowly embedded as pure Lean functions: each handler
becomes a function from the current persisted-file state (and the
nondeterministic inputs it consumes: the fresh uuid and the current time,
passed as explicit parameters) to a result together with the new file state.
HTTPException-raising paths become `Except.error` results that leave the
file state unchanged, exactly as an exception thrown before `save_store`
does in the source.
-/

namespace UniverApp

/-- JSON-like structured value, modelling the Python `Any` payloads the
store treats as opaque data (`content` fields, dropdown cell values). -/
inductive Json where
  | null
  | bool (b : Bool)
  | num (n : Int)
  | str (s : String)
  | arr (xs : List Json)
  | obj (fields : List (String × Json))

/-- The template record shape (`TemplateOut` in `app.py`): `id`, `name`,
`category`, opaque `content`, and ISO-8601 `created_at` / `updated_at`. -/
structure Template where
  id : String
  name : String
  category : String
  content : Json
  created_at : String
  updated_at : String

/-- Request body for create and update (`TemplateCreate` in `app.py`):
all three fields required. -/
structure TemplateCreate where
  name : String
  category : String
  content : Json

/-- The two store-level error outcomes raised by the handlers:
`notFound` is HTTP 404, `conflict` is HTTP 409. -/
inductive ApiError where
  | notFound
  | conflict
deriving DecidableEq

/-- State of the backing file `STORE_PATH`, as `load_store` distinguishes
it: absent, present but not syntactically valid JSON (a
`json.JSONDecodeError`), present with a valid JSON value that is not an
array, or a JSON array of template records. -/
inductive StoreFile where
  | absent
  | malformed
  | nonArray (j : Json)
  | array (items : List Template)

/-- Embedding of `load_store`: missing file yields `[]`, invalid JSON
yields `[]`, a non-array JSON value yields `[]`, an array yields its
items. -/
def load_store : StoreFile → List Template
  | .absent => []
  | .malformed => []
  | .nonArray _ => []
  | .array items => items

/-- Embedding of `save_store` at the store level: the file afterwards
holds exactly the serialized collection (the byte-level
write-temp-then-rename mechanism is modelled separately below). -/
def save_store (items : List Template) : StoreFile :=
  .array items

/-- Embedding of `find_by_id`: first record whose `id` equals
`template_id`, if any. -/
def find_by_id (items : List Template) (template_id : String) : Option Template :=
  items.find? (fun it => it.id == template_id)

/-- Content payload of seed template `tpl-001` (Sales Report Template),
transcribed field-for-field from `MOCK_TEMPLATES` in `app.py`. -/
def mockContent001 : Json :=
  .obj [
    ("sheetOrder", .arr [.str "sheet1"]),
    ("sheets", .obj [
      ("sheet1", .obj [
        ("id", .str "sheet1"),
        ("name", .str "Sales Report"),
        ("cellData", .obj [
          ("0", .obj [
            ("0", .obj [("v", .str "Product ID")]),
            ("1", .obj [("v", .str "Product Name")]),
            ("2", .obj [("v", .str "Quantity")]),
            ("3", .obj [("v", .str "Unit Price")]),
            ("4", .obj [("v", .str "Total")])]),
          ("1", .obj [
            ("0", .obj [("v", .str "P001")]),
            ("1", .obj [("v", .str "Laptop")]),
            ("2", .obj [("v", .num 10)]),
            ("3", .obj [("v", .num 1200)]),
            ("4", .obj [("f", .str "=C2*D2")])]),
          ("2", .obj [
            ("0", .obj [("v", .str "P002")]),
            ("1", .obj [("v", .str "Smartphone")]),
            ("2", .obj [("v", .num 25)]),
            ("3", .obj [("v", .num 800)]),
            ("4", .obj [("f", .str "=C3*D3")])])]),
        ("rowCount", .num 100),
        ("columnCount", .num 20)])])]

/-- Content payload of seed template `tpl-002` (Employee Tracking). -/
def mockContent002 : Json :=
  .obj [
    ("sheetOrder", .arr [.str "sheet1"]),
    ("sheets", .obj [
      ("sheet1", .obj [
        ("id", .str "sheet1"),
        ("name", .str "Employees"),
        ("cellData", .obj [
          ("0", .obj [
            ("0", .obj [("v", .str "ID")]),
            ("1", .obj [("v", .str "Name")]),
            ("2", .obj [("v", .str "Department")]),
            ("3", .obj [("v", .str "Salary")]),
            ("4", .obj [("v", .str "Start Date")])])]),
        ("rowCount", .num 100),
        ("columnCount", .num 10)])])]

/-- Content payload of seed template `tpl-003` (Budget Planning). -/
def mockContent003 : Json :=
  .obj [
    ("sheetOrder", .arr [.str "sheet1"]),
    ("sheets", .obj [
      ("sheet1", .obj [
        ("id", .str "sheet1"),
        ("name", .str "Budget"),
        ("cellData", .obj [
          ("0", .obj [
            ("0", .obj [("v", .str "Category")]),
            ("1", .obj [("v", .str "Q1")]),
            ("2", .obj [("v", .str "Q2")]),
            ("3", .obj [("v", .str "Q3")]),
            ("4", .obj [("v", .str "Q4")]),
            ("5", .obj [("v", .str "Total")])]),
          ("1", .obj [
            ("0", .obj [("v", .str "Marketing")]),
            ("1", .obj [("v", .num 10000)]),
            ("2", .obj [("v", .num 12000)]),
            ("3", .obj [("v", .num 15000)]),
            ("4", .obj [("v", .num 18000)]),
            ("5", .obj [("f", .str "=SUM(B2:E2)")])]),
          ("2", .obj [
            ("0", .obj [("v", .str "R&D")]),
            ("1", .obj [("v", .num 20000)]),
            ("2", .obj [("v", .num 22000)]),
            ("3", .obj [("v", .num 25000)]),
            ("4", .obj [("v", .num 28000)]),
            ("5", .obj [("f", .str "=SUM(B3:E3)")])])]),
        ("rowCount", .num 50),
        ("columnCount", .num 15)])])]

/-- The seed catalog `MOCK_TEMPLATES`: three fixed templates compiled into
the service, never persisted. -/
def MOCK_TEMPLATES : List Template := [
  { id := "tpl-001", name := "Sales Report Template", category := "Sales",
    content := mockContent001,
    created_at := "2025-12-01T10:00:00Z", updated_at := "2025-12-15T14:30:00Z" },
  { id := "tpl-002", name := "Employee Tracking", category := "HR",
    content := mockContent002,
    created_at := "2025-11-20T09:00:00Z", updated_at := "2025-12-10T11:00:00Z" },
  { id := "tpl-003", name := "Budget Planning", category := "Finance",
    content := mockContent003,
    created_at := "2025-10-15T08:00:00Z", updated_at := "2025-12-01T16:00:00Z" }]

/-- Python truthiness of an `Optional[str]` parameter: `None` and the
empty string are falsy, every other string is truthy. Mirrors the bare
`if category:` / `if q:` / `if field:` guards in the handlers. -/
def truthy : Option String → Bool
  | none => false
  | some s => !(s == "")

/-- Prefix test on character lists (needle first): does `hay` start with
`needle`? Empty needle always matches. -/
def startsWithCL : List Char → List Char → Bool
  | [], _ => true
  | _ :: _, [] => false
  | c :: cs, d :: ds => c == d && startsWithCL cs ds

/-- Substring containment on character lists (needle first), the
semantics of the Python `in` operator on `str`. -/
def containsCL (needle : List Char) : List Char → Bool
  | [] => startsWithCL needle []
  | c :: hs => startsWithCL needle (c :: hs) || containsCL needle hs

/-- Python `needle in hay` on strings. -/
def strContains (hay needle : String) : Bool :=
  containsCL needle.data hay.data

/-- Sort relation used by `list_templates`: record `a` may come before
`b` when `b.updated_at ≤ a.updated_at` (descending by `updated_at`). -/
def updRel (a b : Template) : Prop :=
  b.updated_at ≤ a.updated_at

instance : DecidableRel updRel :=
  fun a b => inferInstanceAs (Decidable (b.updated_at ≤ a.updated_at))

instance : IsTotal Template updRel :=
  ⟨fun a b => (le_total b.updated_at a.updated_at).imp id id⟩

instance : IsTrans Template updRel :=
  ⟨fun _ _ _ h1 h2 => le_trans h2 h1⟩

/-- The merge-and-filter phase of `list_templates`: seed templates
concatenated with the persisted ones, then the exact-category filter and
the case-insensitive name-substring filter, each applied only when its
parameter is truthy (present and non-empty), in the order of the code. -/
def filteredTemplates (file : StoreFile) (category q : Option String) : List Template :=
  let saved := load_store file
  let all0 := MOCK_TEMPLATES ++ saved
  let all1 :=
    if truthy category then all0.filter (fun t => t.category == category.getD "")
    else all0
  if truthy q then
    all1.filter (fun t => strContains t.name.toLower ((q.getD "").toLower))
  else all1

/-- Embedding of the `GET /templates` handler `list_templates`:
merge, filter, then a stable sort descending by `updated_at`
(Python `list.sort` with `key=updated_at, reverse=True` is stable;
`List.insertionSort` with this total relation places earlier elements
before later ones on ties, which is the same observable behaviour). -/
def list_templates (file : StoreFile) (category q : Option String) : List Template :=
  List.insertionSort updRel (filteredTemplates file category q)

/-- Embedding of the `GET /templates/{id}` handler `get_template`: seed
templates are consulted first, then the persisted collection. -/
def get_template (file : StoreFile) (template_id : String) : Except ApiError Template :=
  match MOCK_TEMPLATES.find? (fun tpl => tpl.id == template_id) with
  | some tpl => .ok tpl
  | none =>
    match find_by_id (load_store file) template_id with
    | some it => .ok it
    | none => .error .notFound

/-- Embedding of the `POST /templates` handler `create_template`.
The fresh uuid `tid` and the current time `ts = now_iso()` are explicit
parameters. The whole body runs under the store lock, so it is one atomic
step from file state to file state; a 409 raised at the duplicate check
leaves the file untouched. -/
def create_template (file : StoreFile) (payload : TemplateCreate)
    (tid ts : String) : Except ApiError Template × StoreFile :=
  let items := load_store file
  if items.any (fun it => it.name == payload.name && it.category == payload.category) then
    (.error .conflict, file)
  else
    let record : Template :=
      { id := tid, name := payload.name, category := payload.category,
        content := payload.content, created_at := ts, updated_at := ts }
    (.ok record, save_store (items ++ [record]))

/-- In-place mutation of the record `find_by_id` found: the first record
carrying `tid` is replaced by `updated`, the rest of the list is kept. -/
def replaceFirstById (tid : String) (updated : Template) : List Template → List Template
  | [] => []
  | r :: rs => if r.id == tid then updated :: rs else r :: replaceFirstById tid updated rs

/-- Embedding of the `PUT /templates/{id}` handler `update_template`
(whose body model is `TemplateCreate`: all fields required). `ts` is the
`now_iso()` value taken at the update. -/
def update_template (file : StoreFile) (template_id : String)
    (payload : TemplateCreate) (ts : String) : Except ApiError Template × StoreFile :=
  let items := load_store file
  match find_by_id items template_id with
  | none => (.error .notFound, file)
  | some it =>
    let updated : Template :=
      { it with name := payload.name, category := payload.category,
                content := payload.content, updated_at := ts }
    (.ok updated, save_store (replaceFirstById template_id updated items))

/-- Embedding of the `DELETE /templates/{id}` handler `delete_template`:
filters out every record with the given id; 404 when nothing was
removed; on success returns the deleted id. -/
def delete_template (file : StoreFile) (template_id : String) :
    Except ApiError String × StoreFile :=
  let items := load_store file
  let remaining := items.filter (fun it => it.id != template_id)
  if remaining.length == items.length then (.error .notFound, file)
  else (.ok template_id, save_store remaining)

/-- Scalar value in a dropdown record: the `MOCK_DATA` rows hold only
strings and integers. -/
inductive PyVal where
  | s (v : String)
  | i (n : Int)

/-- Python `str()` on a dropdown value: identity on strings, decimal
rendering on integers. -/
def pyStr : PyVal → String
  | .s v => v
  | .i n => toString n

/-- A dropdown record: field names to values, in insertion order (the
order `item.values()` iterates in). -/
abbrev Row := List (String × PyVal)

/-- The fixed reference datasets `MOCK_DATA`, transcribed from
`app.py`. -/
def MOCK_DATA : List (String × List Row) := [
  ("products", [
    [("id", .s "P001"), ("name", .s "Laptop"), ("price", .i 1200), ("category", .s "Electronics")],
    [("id", .s "P002"), ("name", .s "Smartphone"), ("price", .i 800), ("category", .s "Electronics")],
    [("id", .s "P003"), ("name", .s "Headphones"), ("price", .i 150), ("category", .s "Electronics")],
    [("id", .s "P004"), ("name", .s "Desk Chair"), ("price", .i 350), ("category", .s "Furniture")],
    [("id", .s "P005"), ("name", .s "Monitor"), ("price", .i 400), ("category", .s "Electronics")],
    [("id", .s "P006"), ("name", .s "Keyboard"), ("price", .i 80), ("category", .s "Electronics")],
    [("id", .s "P007"), ("name", .s "Mouse"), ("price", .i 45), ("category", .s "Electronics")],
    [("id", .s "P008"), ("name", .s "Desk"), ("price", .i 500), ("category", .s "Furniture")]]),
  ("employees", [
    [("id", .s "E001"), ("name", .s "Nguyen Van A"), ("department", .s "IT"), ("salary", .i 2000)],
    [("id", .s "E002"), ("name", .s "Tran Thi B"), ("department", .s "HR"), ("salary", .i 1800)],
    [("id", .s "E003"), ("name", .s "Le Van C"), ("department", .s "Finance"), ("salary", .i 2200)],
    [("id", .s "E004"), ("name", .s "Pham Thi D"), ("department", .s "IT"), ("salary", .i 2100)],
    [("id", .s "E005"), ("name", .s "Hoang Van E"), ("department", .s "Sales"), ("salary", .i 1900)],
    [("id", .s "E006"), ("name", .s "Vo Thi F"), ("department", .s "Marketing"), ("salary", .i 1850)]]),
  ("customers", [
    [("id", .s "C001"), ("name", .s "Company A"), ("country", .s "Vietnam"), ("revenue", .i 50000)],
    [("id", .s "C002"), ("name", .s "Company B"), ("country", .s "Japan"), ("revenue", .i 75000)],
    [("id", .s "C003"), ("name", .s "Company C"), ("country", .s "USA"), ("revenue", .i 120000)],
    [("id", .s "C004"), ("name", .s "Company D"), ("country", .s "Korea"), ("revenue", .i 85000)],
    [("id", .s "C005"), ("name", .s "Company E"), ("country", .s "Singapore"), ("revenue", .i 65000)]]),
  ("categories", [
    [("id", .s "CAT01"), ("name", .s "Electronics"), ("description", .s "Electronic devices")],
    [("id", .s "CAT02"), ("name", .s "Furniture"), ("description", .s "Office furniture")],
    [("id", .s "CAT03"), ("name", .s "Software"), ("description", .s "Software licenses")],
    [("id", .s "CAT04"), ("name", .s "Services"), ("description", .s "Professional services")]])]

/-- Lookup of a dropdown source by name (`source not in MOCK_DATA`
raises 404 in the handlers). -/
def lookupSource (source : String) : Option (List Row) :=
  (MOCK_DATA.find? (fun kv => kv.fst == source)).map (fun kv => kv.snd)

/-- Python `str(item.get(field, ""))`: the stringified value of `field`
in `item`, or the empty string when absent. -/
def getFieldStr (item : Row) (field : String) : String :=
  match item.find? (fun kv => kv.fst == field) with
  | some kv => pyStr kv.snd
  | none => ""

/-- Response shape of `GET /dropdown/{source}/search`: the handler echoes
the source and the raw query alongside the filtered data. -/
structure SearchResult where
  source : String
  query : Option String
  data : List Row

/-- Embedding of the `GET /dropdown/{source}/search` handler
`search_dropdown_data`: unknown source is 404; a truthy `q` filters by
case-insensitive substring match against the named field (when `field`
is truthy) or against every stringified value of the record. -/
def search_dropdown_data (source : String) (q field : Option String) :
    Except ApiError SearchResult :=
  match lookupSource source with
  | none => .error .notFound
  | some data =>
    let data1 :=
      if truthy q then
        let ql := (q.getD "").toLower
        if truthy field then
          data.filter (fun item => strContains (getFieldStr item (field.getD "")).toLower ql)
        else
          data.filter (fun item => item.any (fun kv => strContains (pyStr kv.snd).toLower ql))
      else data
    .ok { source := source, query := q, data := data1 }

/-! Byte-level persistence model for `save_store`.

The Python `save_store` serializes the whole collection with `json.dump`
into the sibling path `STORE_PATH + ".tmp"` and then calls `os.replace`,
whose rename is atomic. Below, the serializer is made explicit (a compact
JSON printer; the pretty-printing whitespace `json.dump(…, indent=2)`
inserts is not reproduced, as nothing observable depends on it), and the
filesystem is a pair of file contents on which `save_store` is a sequence
of small steps: truncating open of the temp file, any number of partial
appends that together write the serialized text, and the atomic rename.
An observer (a concurrent reader, or a crash) sees the state after some
prefix of these steps. -/

/-- JSON string-literal escaping as `json.dump` performs it (with
`ensure_ascii=False`): quote, backslash and ASCII control characters are
escaped, everything else is copied verbatim. -/
def escapeChar (c : Char) : String :=
  if c == '\"' then "\\\""
  else if c == '\\' then "\\\\"
  else if c == '\n' then "\\n"
  else if c == '\t' then "\\t"
  else if c == '\r' then "\\r"
  else if c.toNat < 32 then "\\u" ++ String.mk (Nat.toDigits 16 c.toNat)
  else String.mk [c]

/-- Serialized JSON string literal. -/
def dumpString (s : String) : String :=
  "\"" ++ String.join (s.data.map escapeChar) ++ "\""

mutual

/-- Compact JSON rendering of a `Json` value. -/
def dumpJson : Json → String
  | .null => "null"
  | .bool b => cond b "true" "false"
  | .num n => toString n
  | .str s => dumpString s
  | .arr xs => "[" ++ dumpArr xs ++ "]"
  | .obj fs => "\x7b" ++ dumpObj fs ++ "\x7d"

/-- Comma-separated rendering of array elements. -/
def dumpArr : List Json → String
  | [] => ""
  | [j] => dumpJson j
  | j :: rest => dumpJson j ++ "," ++ dumpArr rest

/-- Comma-separated rendering of object members. -/
def dumpObj : List (String × Json) → String
  | [] => ""
  | [(k, v)] => dumpString k ++ ":" ++ dumpJson v
  | (k, v) :: rest => dumpString k ++ ":" ++ dumpJson v ++ "," ++ dumpObj rest

end

/-- JSON object for one template record, fields in the order
`create_template` builds them. -/
def templateToJson (t : Template) : Json :=
  .obj [("id", .str t.id), ("name", .str t.name), ("category", .str t.category),
        ("content", t.content), ("created_at", .str t.created_at),
        ("updated_at", .str t.updated_at)]

/-- The complete serialized text `json.dump(items, f)` writes: the JSON
array of all records. -/
def dumpStore (items : List Template) : String :=
  dumpJson (.arr (items.map templateToJson))

/-- Contents of the two paths `save_store` touches: the real
`STORE_PATH` and the sibling `STORE_PATH + ".tmp"`; `none` is an absent
file. -/
structure FS where
  real : Option String
  tmp : Option String

/-- One atomic filesystem step of `save_store`. -/
inductive FsEvent where
  | openTruncTmp
  | writeTmp (chunk : String)
  | replaceTmpReal

/-- Effect of one step: `open(tmp, "w")` truncates the temp file, a write
appends to it, `os.replace` atomically moves the temp file onto the real
path. -/
def applyEvent (fs : FS) : FsEvent → FS
  | .openTruncTmp => { fs with tmp := some "" }
  | .writeTmp c => { fs with tmp := some ((fs.tmp.getD "") ++ c) }
  | .replaceTmpReal => { real := fs.tmp, tmp := none }

/-- Run of a step sequence. -/
def applyEvents (fs : FS) (es : List FsEvent) : FS :=
  es.foldl applyEvent fs

/-- Step sequence of `save_store items`: truncating open, the writes
`json.dump` issues (any chunking whose concatenation is the full
serialized text), then the atomic rename. -/
def save_store_events (chunks : List String) : List FsEvent :=
  .openTruncTmp :: (chunks.map .writeTmp ++ [.replaceTmpReal])

/-- Concatenation of the chunks a buffered `json.dump` hands to
`f.write`; a faithful run writes chunks joining to the full serialized
text. -/
def chunksJoin : List String → String
  | [] => ""
  | c :: cs => c ++ chunksJoin cs

/-- Concrete persisted record used by the closed-form checks below. -/
def sampleT0 : Template :=
  { id := "u0", name := "A", category := "B",
    content := .null, created_at := "T0", updated_at := "T0" }

/-! Theorems. -/

theorem load_store_save (items : List Template) :
    load_store (save_store items) = items := rfl

theorem filter_updKey_orderedInsert (x : Template) (l : List Template) (k : String) :
    (List.orderedInsert updRel x l).filter (fun t => t.updated_at == k)
      = if x.updated_at == k
          then x :: l.filter (fun t => t.updated_at == k)
          else l.filter (fun t => t.updated_at == k) := by
  induction l with
  | nil =>
    by_cases hk : x.updated_at = k <;>
      simp [List.orderedInsert, List.filter_cons, hk]
  | cons y ys ih =>
    by_cases h : updRel x y
    · rw [List.orderedInsert_of_le _ _ h]
      by_cases hk : x.updated_at = k <;>
        simp [List.filter_cons, hk]
    · have hlt : x.updated_at < y.updated_at := by
        simpa [updRel, not_le] using h
      rw [show List.orderedInsert updRel x (y :: ys)
            = y :: List.orderedInsert updRel x ys by
          simp [List.orderedInsert, h]]
      by_cases hk : x.updated_at = k
      · have hyk : (y.updated_at == k) = false := by
          simp only [beq_eq_false_iff_ne, ne_eq]
          intro hy
          exact hlt.ne (hk.trans hy.symm)
        simp [List.filter_cons, hyk, ih, hk]
      · by_cases hyk : y.updated_at = k <;>
          simp [List.filter_cons, hyk, ih, hk]


theorem filter_updKey_insertionSort (l : List Template) (k : String) :
    (List.insertionSort updRel l).filter (fun t => t.updated_at == k)
      = l.filter (fun t => t.updated_at == k) := by
  induction l with
  | nil => rfl
  | cons x xs ih =>
    rw [List.insertionSort, filter_updKey_orderedInsert, ih]
    by_cases hk : x.updated_at = k <;> simp [List.filter_cons, hk]

/-- C4: every `List` result is the seed templates concatenated with the
persisted templates, filtered by exact category and by case-insensitive
name substring (each filter only when its parameter is truthy, in
combination) — that merge-and-filter is `filteredTemplates` by
definition — and the output is sorted by `updated_at` descending
(`updRel`), is a permutation of the filtered merge, and keeps every
fiber of equal `updated_at` keys in its original relative order (the
stable-sort guarantee of Python `list.sort`). -/
theorem list_templates_sorted_stable (file : StoreFile) (category q : Option String) :
    List.Sorted updRel (list_templates file category q)
    ∧ (list_templates file category q).Perm (filteredTemplates file category q)
    ∧ ∀ k, (list_templates file category q).filter (fun t => t.updated_at == k)
        = (filteredTemplates file category q).filter (fun t => t.updated_at == k) :=
  ⟨List.sorted_insertionSort updRel _,
   List.perm_insertionSort updRel _,
   fun k => filter_updKey_insertionSort _ k⟩

/-- C10: supplying an empty-string category or name query to `List`, or
an empty-string `q` to the dropdown search, behaves exactly like omitting
the parameter, because the handlers guard every filter with Python
truthiness (`if category:` / `if q:`), under which `""` and `None`
coincide (the dropdown response also echoes the raw query it was given,
so the comparison is up to that echoed field). -/
theorem empty_filters_are_omitted :
    (∀ file q, list_templates file (some "") q = list_templates file none q)
    ∧ (∀ file category, list_templates file category (some "")
        = list_templates file category none)
    ∧ (∀ source field, search_dropdown_data source (some "") field
        = (search_dropdown_data source none field).map
            (fun r => { r with query := some "" })) := by
  refine ⟨fun file q => rfl, fun file category => ?_, fun source field => ?_⟩
  · simp only [list_templates, filteredTemplates, truthy]
    simp
  · simp only [search_dropdown_data]
    cases lookupSource source <;> simp [truthy, Except.map]

theorem find?_append_of_none {α : Type} {p : α → Bool} {l1 l2 : List α}
    (h : l1.find? p = none) : (l1 ++ l2).find? p = l2.find? p := by
  induction l1 with
  | nil => rfl
  | cons x xs ih =>
    cases hx : p x with
    | true =>
      rw [List.find?_cons_of_pos _ hx] at h
      exact absurd h (by simp)
    | false =>
      rw [List.find?_cons_of_neg _ (by simp [hx])] at h
      rw [List.cons_append, List.find?_cons_of_neg _ (by simp [hx])]
      exact ih h

theorem find?_id_eq_none_of_all {items : List Template} {tid : String}
    (h : items.all (fun it => it.id != tid) = true) :
    items.find? (fun it => it.id == tid) = none := by
  rw [List.find?_eq_none]
  intro it hmem
  have := (List.all_eq_true.mp h) it hmem
  simpa using this

/-- C3: a Create whose (name, category) pair already occurs in the
persisted collection fails with Conflict and leaves the backing file —
hence the persisted collection and its count — unchanged; when no
persisted record carries the pair, the Create succeeds, regardless of any
seed template carrying the same pair (the duplicate check ranges over
`load_store` only, never over `MOCK_TEMPLATES`). -/
theorem create_conflict_checks_persisted_only (file : StoreFile)
    (p : TemplateCreate) (tid ts : String) :
    ((load_store file).any
        (fun it => it.name == p.name && it.category == p.category) = true →
      create_template file p tid ts = (.error .conflict, file)
      ∧ (load_store (create_template file p tid ts).2).length
          = (load_store file).length)
    ∧ ((load_store file).any
        (fun it => it.name == p.name && it.category == p.category) = false →
      (create_template file p tid ts).1
        = .ok { id := tid, name := p.name, category := p.category,
                content := p.content, created_at := ts, updated_at := ts }) := by
  constructor
  · intro h
    constructor <;> simp [create_template, h]
  · intro h
    simp [create_template, h]

/-- C5: a successful Create followed by a Get of the fresh id (no
intervening mutation) returns exactly the created record, whose `name`,
`category` and `content` are the payload and whose `created_at` and
`updated_at` are both the creation time. The hypotheses record the
nondeterministic facts the code relies on: the generated uuid collides
neither with a seed id (Get consults seeds first) nor with a persisted
id, and the payload passes the duplicate check. -/
theorem create_then_get_roundtrip (file : StoreFile) (p : TemplateCreate)
    (tid ts : String)
    (h1 : MOCK_TEMPLATES.all (fun t => t.id != tid) = true)
    (h2 : (load_store file).all (fun it => it.id != tid) = true)
    (h3 : (load_store file).any
        (fun it => it.name == p.name && it.category == p.category) = false) :
    (create_template file p tid ts).1
      = .ok { id := tid, name := p.name, category := p.category,
              content := p.content, created_at := ts, updated_at := ts }
    ∧ get_template (create_template file p tid ts).2 tid
      = .ok { id := tid, name := p.name, category := p.category,
              content := p.content, created_at := ts, updated_at := ts } := by
  have hcreate : create_template file p tid ts
      = (.ok { id := tid, name := p.name, category := p.category,
               content := p.content, created_at := ts, updated_at := ts },
         save_store (load_store file ++
           [{ id := tid, name := p.name, category := p.category,
              content := p.content, created_at := ts, updated_at := ts }])) := by
    simp [create_template, h3]
  refine ⟨by rw [hcreate], ?_⟩
  rw [hcreate]
  simp only [get_template, load_store_save, find_by_id]
  rw [find?_id_eq_none_of_all h1, find?_append_of_none (find?_id_eq_none_of_all h2)]
  simp

/-- Closed-form check of C5: the roundtrip applied at an empty store with
a concrete payload, uuid and timestamp. -/
theorem create_then_get_roundtrip_witness :
    (create_template .absent ⟨"My Report", "Sales", .null⟩
        "3f2a" "2026-01-02T03:04:05+00:00").1
      = .ok { id := "3f2a", name := "My Report", category := "Sales",
              content := .null, created_at := "2026-01-02T03:04:05+00:00",
              updated_at := "2026-01-02T03:04:05+00:00" }
    ∧ get_template (create_template .absent ⟨"My Report", "Sales", .null⟩
        "3f2a" "2026-01-02T03:04:05+00:00").2 "3f2a"
      = .ok { id := "3f2a", name := "My Report", category := "Sales",
              content := .null, created_at := "2026-01-02T03:04:05+00:00",
              updated_at := "2026-01-02T03:04:05+00:00" } :=
  create_then_get_roundtrip .absent ⟨"My Report", "Sales", .null⟩
    "3f2a" "2026-01-02T03:04:05+00:00" (by decide) (by decide) (by decide)

/-- Closed-form check of C3: a Create duplicating a persisted (name,
category) pair is a Conflict that leaves the file unchanged, while a
Create duplicating only the seed pair ("Sales Report Template", "Sales")
succeeds on an empty store. -/
theorem create_conflict_checks_persisted_only_witness :
    (create_template
        (.array [{ id := "u0", name := "A", category := "B",
                   content := .null, created_at := "T0", updated_at := "T0" }])
        ⟨"A", "B", .bool true⟩ "u1" "T1"
      = (.error .conflict,
         .array [{ id := "u0", name := "A", category := "B",
                   content := .null, created_at := "T0", updated_at := "T0" }]))
    ∧ (create_template .absent ⟨"Sales Report Template", "Sales", .null⟩ "u1" "T1").1
      = .ok { id := "u1", name := "Sales Report Template", category := "Sales",
              content := .null, created_at := "T1", updated_at := "T1" } :=
  ⟨((create_conflict_checks_persisted_only
      (.array [{ id := "u0", name := "A", category := "B",
                 content := .null, created_at := "T0", updated_at := "T0" }])
      ⟨"A", "B", .bool true⟩ "u1" "T1").1 (by decide)).1,
   (create_conflict_checks_persisted_only .absent
      ⟨"Sales Report Template", "Sales", .null⟩ "u1" "T1").2 (by decide)⟩

/-- C6: an Update whose id matches no persisted record — in particular
any seed id, persisted records never carrying seed ids — fails with
NotFound and leaves the file unchanged; an Update that finds its record
overwrites exactly `name`, `category` and `content`, stamps `updated_at`
with the current time `ts`, keeps `created_at` and `id` untouched, and
(whenever the clock has not gone backwards past the record, i.e.
`it.updated_at ≤ ts`) the new `updated_at` is at least the old one. -/
theorem update_overwrites_and_preserves (file : StoreFile)
    (template_id : String) (p : TemplateCreate) (ts : String) :
    (find_by_id (load_store file) template_id = none →
      update_template file template_id p ts = (.error .notFound, file))
    ∧ (∀ it, find_by_id (load_store file) template_id = some it →
        ∃ r, update_template file template_id p ts
            = (.ok r, save_store (replaceFirstById template_id r (load_store file)))
          ∧ r.name = p.name ∧ r.category = p.category ∧ r.content = p.content
          ∧ r.updated_at = ts ∧ r.created_at = it.created_at ∧ r.id = it.id
          ∧ (it.updated_at ≤ ts → it.updated_at ≤ r.updated_at)) := by
  constructor
  · intro h
    simp [update_template, h]
  · intro it h
    have hr : update_template file template_id p ts
        = (.ok { it with
                 name := p.name, category := p.category,
                 content := p.content, updated_at := ts },
           save_store (replaceFirstById template_id
             { it with
               name := p.name, category := p.category,
               content := p.content, updated_at := ts } (load_store file))) := by
      simp [update_template, h]
    exact ⟨_, hr, rfl, rfl, rfl, rfl, rfl, rfl, fun hle => hle⟩

/-- Closed-form check of C6: updating the seed id `tpl-001` against a
store that does not contain it is NotFound; updating a present record
rewrites payload fields and `updated_at` only. -/
theorem update_overwrites_and_preserves_witness :
    (update_template (.array [sampleT0]) "tpl-001" ⟨"N", "C", .bool true⟩ "T1"
      = (.error .notFound, .array [sampleT0]))
    ∧ ∃ r, update_template (.array [sampleT0]) "u0" ⟨"N", "C", .bool true⟩ "T1"
        = (.ok r, save_store (replaceFirstById "u0" r [sampleT0]))
      ∧ r.name = "N" ∧ r.category = "C" ∧ r.content = .bool true
      ∧ r.updated_at = "T1" ∧ r.created_at = "T0" ∧ r.id = "u0"
      ∧ ("T0" : String) ≤ "T1" ∧ r.updated_at = "T1" := by
  constructor
  · exact (update_overwrites_and_preserves (.array [sampleT0])
      "tpl-001" ⟨"N", "C", .bool true⟩ "T1").1 (by simp [find_by_id, load_store, sampleT0])
  · obtain ⟨r, heq, hn, hc, hco, hu, hcr, hid, _⟩ :=
      (update_overwrites_and_preserves (.array [sampleT0])
        "u0" ⟨"N", "C", .bool true⟩ "T1").2 sampleT0
        (by simp [find_by_id, load_store, sampleT0])
    exact ⟨r, heq, hn, hc, hco, hu, hcr.trans rfl, hid.trans rfl,
      by rw [String.le_iff_toList_le]; decide, hu⟩

theorem length_filter_ne_add_countP (items : List Template) (tid : String) :
    (items.filter (fun it => it.id != tid)).length
      + items.countP (fun it => it.id == tid) = items.length := by
  induction items with
  | nil => rfl
  | cons x xs ih =>
    rw [List.filter_cons, List.countP_cons]
    by_cases hx : x.id = tid
    · rw [if_neg (show ¬((x.id != tid) = true) by simp [hx]),
          if_pos (show (x.id == tid) = true by simp [hx])]
      simp only [List.length_cons]
      omega
    · rw [if_pos (show (x.id != tid) = true by simp [hx]),
          if_neg (show ¬((x.id == tid) = true) by simp [hx])]
      simp only [List.length_cons]
      omega

/-- C7: a Delete whose id matches no persisted record — seed ids never
being persisted, deletion never succeeds against a seed — fails with
NotFound and leaves the file unchanged; a Delete of an id persisted
exactly once (the store's id-uniqueness invariant) succeeds, shrinks the
persisted collection by exactly one record, and a subsequent Get of that
id (the uuid not being a seed id) is NotFound. -/
theorem delete_removes_exactly_one (file : StoreFile) (template_id : String) :
    ((load_store file).all (fun it => it.id != template_id) = true →
      delete_template file template_id = (.error .notFound, file))
    ∧ ((load_store file).countP (fun it => it.id == template_id) = 1 →
      (delete_template file template_id).1 = .ok template_id
      ∧ (load_store (delete_template file template_id).2).length + 1
          = (load_store file).length
      ∧ (MOCK_TEMPLATES.all (fun t => t.id != template_id) = true →
          get_template (delete_template file template_id).2 template_id
            = .error .notFound)) := by
  constructor
  · intro h
    have hfilter : (load_store file).filter (fun it => it.id != template_id)
        = load_store file :=
      List.filter_eq_self.mpr (List.all_eq_true.mp h)
    simp [delete_template, hfilter]
  · intro hc
    have hlen := length_filter_ne_add_countP (load_store file) template_id
    rw [hc] at hlen
    have hne : ((load_store file).filter (fun it => it.id != template_id)).length
        ≠ (load_store file).length := by omega
    have hdel : delete_template file template_id
        = (.ok template_id,
           save_store ((load_store file).filter (fun it => it.id != template_id))) := by
      simp [delete_template, hne]
    refine ⟨by rw [hdel], by rw [hdel, load_store_save]; exact hlen, ?_⟩
    intro hseed
    rw [hdel]
    simp only [get_template, load_store_save, find_by_id]
    rw [find?_id_eq_none_of_all hseed]
    have hnone : ((load_store file).filter
        (fun it => it.id != template_id)).find? (fun it => it.id == template_id)
        = none := by
      rw [List.find?_eq_none]
      intro x hx
      have := (List.mem_filter.mp hx).2
      simp only [bne_iff_ne, ne_eq] at this
      simp [this]
    rw [hnone]

/-- Closed-form check of C7: deleting an absent id is NotFound; deleting
the unique record with id `u0` shrinks the store from one record to
zero and a following Get of `u0` is NotFound. -/
theorem delete_removes_exactly_one_witness :
    (delete_template (.array [sampleT0]) "zz"
      = (.error .notFound, .array [sampleT0]))
    ∧ (delete_template (.array [sampleT0]) "u0").1 = .ok "u0"
    ∧ (load_store (delete_template (.array [sampleT0]) "u0").2).length + 1
        = (load_store (.array [sampleT0])).length
    ∧ get_template (delete_template (.array [sampleT0]) "u0").2 "u0"
        = .error .notFound := by
  refine ⟨(delete_removes_exactly_one (.array [sampleT0]) "zz").1 (by decide), ?_⟩
  obtain ⟨h1, h2, h3⟩ :=
    (delete_removes_exactly_one (.array [sampleT0]) "u0").2 (by decide)
  exact ⟨h1, h2, h3 (by decide)⟩

/-- C9: a successful Create appends a record whose id is the generated
uuid, distinct from every id persisted before the call, and id
uniqueness of the persisted collection is preserved: if ids were
pairwise distinct before, they are pairwise distinct after, the new id
differing from all others. The freshness hypothesis states the uuid4
guarantee the code relies on (collision probability negligible). -/
theorem create_id_unique (file : StoreFile) (p : TemplateCreate) (tid ts : String)
    (hfresh : (load_store file).all (fun it => it.id != tid) = true)
    (hnodup : ((load_store file).map (fun it => it.id)).Nodup)
    (hdup : (load_store file).any
        (fun it => it.name == p.name && it.category == p.category) = false) :
    ∃ r, (create_template file p tid ts).1 = .ok r
      ∧ r.id = tid
      ∧ (∀ it ∈ load_store file, it.id ≠ r.id)
      ∧ load_store (create_template file p tid ts).2 = load_store file ++ [r]
      ∧ ((load_store (create_template file p tid ts).2).map (fun it => it.id)).Nodup := by
  have hcreate : create_template file p tid ts
      = (.ok { id := tid, name := p.name, category := p.category,
               content := p.content, created_at := ts, updated_at := ts },
         save_store (load_store file ++
           [{ id := tid, name := p.name, category := p.category,
              content := p.content, created_at := ts, updated_at := ts }])) := by
    simp [create_template, hdup]
  have hmem : ∀ it ∈ load_store file, it.id ≠ tid := by
    intro it hit
    have := (List.all_eq_true.mp hfresh) it hit
    simpa using this
  refine ⟨_, by rw [hcreate], rfl, hmem, by rw [hcreate, load_store_save], ?_⟩
  rw [hcreate, load_store_save, List.map_append]
  rw [List.nodup_append]
  refine ⟨hnodup, by simp, ?_⟩
  intro a ha hb
  simp only [List.map_cons, List.map_nil, List.mem_singleton] at hb
  obtain ⟨it, hit, rfl⟩ := List.mem_map.mp ha
  exact hmem it hit hb

/-- Closed-form check of C9: creating on a store holding one record with
id `u0` and a fresh uuid `u1` yields a record with id `u1`, distinct
from `u0`, and the stored ids `[u0, u1]` are pairwise distinct. -/
theorem create_id_unique_witness :
    ∃ r, (create_template (.array [sampleT0]) ⟨"N", "C", .null⟩ "u1" "T1").1 = .ok r
      ∧ r.id = "u1"
      ∧ (∀ it ∈ load_store (.array [sampleT0]), it.id ≠ r.id)
      ∧ load_store (create_template (.array [sampleT0]) ⟨"N", "C", .null⟩ "u1" "T1").2
          = load_store (.array [sampleT0]) ++ [r]
      ∧ ((load_store (create_template (.array [sampleT0])
            ⟨"N", "C", .null⟩ "u1" "T1").2).map (fun it => it.id)).Nodup :=
  create_id_unique (.array [sampleT0]) ⟨"N", "C", .null⟩ "u1" "T1"
    (by decide) (by decide) (by decide)

theorem create_then_create_conflict (file : StoreFile) (pA pB : TemplateCreate)
    (tidA tidB tsA tsB : String)
    (hn : pB.name = pA.name) (hc : pB.category = pA.category)
    (hA : (load_store file).any
        (fun it => it.name == pA.name && it.category == pA.category) = false) :
    (create_template file pA tidA tsA).1
      = .ok { id := tidA, name := pA.name, category := pA.category,
              content := pA.content, created_at := tsA, updated_at := tsA }
    ∧ create_template (create_template file pA tidA tsA).2 pB tidB tsB
        = (.error .conflict, (create_template file pA tidA tsA).2) := by
  have hcreate : create_template file pA tidA tsA
      = (.ok { id := tidA, name := pA.name, category := pA.category,
               content := pA.content, created_at := tsA, updated_at := tsA },
         save_store (load_store file ++
           [{ id := tidA, name := pA.name, category := pA.category,
              content := pA.content, created_at := tsA, updated_at := tsA }])) := by
    simp [create_template, hA]
  refine ⟨by rw [hcreate], ?_⟩
  rw [hcreate]
  simp [create_template, load_store_save, List.any_append, hn, hc]

/-- C1: two Create calls carrying the same (name, category) pair, run
concurrently against a store in which the pair is absent, yield exactly
one success and one Conflict, never two successes. The whole body of
`create_template` (duplicate check, append, save) executes under the
process-wide `_lock`, so each call is one atomic step and a concurrent
execution is observationally one of the two serial orders; in either
order the first call succeeds and the second hits the duplicate check of
the pair the first one just persisted. -/
theorem concurrent_create_one_success (file : StoreFile) (p1 p2 : TemplateCreate)
    (tid1 tid2 ts1 ts2 : String)
    (hname : p2.name = p1.name) (hcat : p2.category = p1.category)
    (habsent : (load_store file).any
        (fun it => it.name == p1.name && it.category == p1.category) = false) :
    ((create_template file p1 tid1 ts1).1
        = .ok { id := tid1, name := p1.name, category := p1.category,
                content := p1.content, created_at := ts1, updated_at := ts1 }
      ∧ create_template (create_template file p1 tid1 ts1).2 p2 tid2 ts2
          = (.error .conflict, (create_template file p1 tid1 ts1).2))
    ∧ ((create_template file p2 tid2 ts2).1
        = .ok { id := tid2, name := p2.name, category := p2.category,
                content := p2.content, created_at := ts2, updated_at := ts2 }
      ∧ create_template (create_template file p2 tid2 ts2).2 p1 tid1 ts1
          = (.error .conflict, (create_template file p2 tid2 ts2).2)) := by
  have habsent2 : (load_store file).any
      (fun it => it.name == p2.name && it.category == p2.category) = false := by
    rw [hname, hcat]; exact habsent
  exact ⟨create_then_create_conflict file p1 p2 tid1 tid2 ts1 ts2 hname hcat habsent,
         create_then_create_conflict file p2 p1 tid2 tid1 ts2 ts1
           hname.symm hcat.symm habsent2⟩

/-- Closed-form check of C1: both serial orders of two Creates of the
pair ("A", "B") on the empty store give one success and one Conflict. -/
theorem concurrent_create_one_success_witness :
    ((create_template .absent ⟨"A", "B", .null⟩ "u1" "T1").1
        = .ok { id := "u1", name := "A", category := "B",
                content := .null, created_at := "T1", updated_at := "T1" }
      ∧ create_template (create_template .absent ⟨"A", "B", .null⟩ "u1" "T1").2
          ⟨"A", "B", .bool true⟩ "u2" "T2"
          = (.error .conflict, (create_template .absent ⟨"A", "B", .null⟩ "u1" "T1").2))
    ∧ ((create_template .absent ⟨"A", "B", .bool true⟩ "u2" "T2").1
        = .ok { id := "u2", name := "A", category := "B",
                content := .bool true, created_at := "T2", updated_at := "T2" }
      ∧ create_template (create_template .absent ⟨"A", "B", .bool true⟩ "u2" "T2").2
          ⟨"A", "B", .null⟩ "u1" "T1"
          = (.error .conflict,
             (create_template .absent ⟨"A", "B", .bool true⟩ "u2" "T2").2)) :=
  concurrent_create_one_success .absent ⟨"A", "B", .null⟩ ⟨"A", "B", .bool true⟩
    "u1" "u2" "T1" "T2" rfl rfl (by decide)

/-- C8: loading an absent backing file, a file with invalid JSON syntax,
or a file holding a non-array JSON value yields the empty collection
rather than an error; consequently List over a corrupted file behaves
exactly as over an absent one and returns only seed templates, and a
subsequent Create succeeds, persisting a well-formed one-record array. -/
theorem load_lenient_recovery :
    load_store .absent = []
    ∧ load_store .malformed = []
    ∧ (∀ j, load_store (.nonArray j) = [])
    ∧ (∀ category q, list_templates .malformed category q
        = list_templates .absent category q)
    ∧ (∀ category q t, t ∈ list_templates .malformed category q
        → t ∈ MOCK_TEMPLATES)
    ∧ (∀ p : TemplateCreate, ∀ tid ts,
        create_template .malformed p tid ts
          = (.ok { id := tid, name := p.name, category := p.category,
                   content := p.content, created_at := ts, updated_at := ts },
             save_store [{ id := tid, name := p.name, category := p.category,
                           content := p.content, created_at := ts, updated_at := ts }])) := by
  refine ⟨rfl, rfl, fun j => rfl, fun category q => rfl, ?_, fun p tid ts => rfl⟩
  intro category q t ht
  replace ht := (List.mem_insertionSort updRel).mp ht
  simp only [filteredTemplates, load_store, List.append_nil] at ht
  split at ht
  · replace ht := (List.mem_filter.mp ht).1
    split at ht
    · exact (List.mem_filter.mp ht).1
    · exact ht
  · split at ht
    · exact (List.mem_filter.mp ht).1
    · exact ht

/-- Closed-form check of C8: over a corrupt file, the first seed template
is in the List result and every List element is a seed; a concrete
Create on the corrupt file succeeds and writes a one-record array. -/
theorem load_lenient_recovery_witness :
    ({ id := "tpl-001", name := "Sales Report Template", category := "Sales",
       content := mockContent001, created_at := "2025-12-01T10:00:00Z",
       updated_at := "2025-12-15T14:30:00Z" } : Template) ∈ MOCK_TEMPLATES
    ∧ create_template .malformed ⟨"A", "B", .null⟩ "u1" "T1"
        = (.ok { id := "u1", name := "A", category := "B",
                 content := .null, created_at := "T1", updated_at := "T1" },
           save_store [{ id := "u1", name := "A", category := "B",
                         content := .null, created_at := "T1", updated_at := "T1" }]) :=
  ⟨load_lenient_recovery.2.2.2.2.1 none none _
    ((List.mem_insertionSort updRel).mpr
      (by simp [filteredTemplates, truthy, load_store, MOCK_TEMPLATES])),
   load_lenient_recovery.2.2.2.2.2 ⟨"A", "B", .null⟩ "u1" "T1"⟩

theorem applyEvents_no_replace_real (es : List FsEvent) :
    ∀ fs : FS, (∀ e ∈ es, e ≠ FsEvent.replaceTmpReal) →
      (applyEvents fs es).real = fs.real := by
  induction es with
  | nil => intro fs _; rfl
  | cons e es ih =>
    intro fs h
    have h1 : ∀ x ∈ es, x ≠ FsEvent.replaceTmpReal :=
      fun x hx => h x (List.mem_cons_of_mem e hx)
    have h0 : e ≠ FsEvent.replaceTmpReal := h e (List.mem_cons_self e es)
    show (applyEvents (applyEvent fs e) es).real = fs.real
    cases e with
    | openTruncTmp => exact (ih _ h1).trans rfl
    | writeTmp c => exact (ih _ h1).trans rfl
    | replaceTmpReal => exact absurd rfl h0

theorem applyEvents_writes_tmp (chunks : List String) :
    ∀ (fs : FS) (s : String), fs.tmp = some s →
      (applyEvents fs (chunks.map FsEvent.writeTmp)).tmp
        = some (s ++ chunksJoin chunks) := by
  induction chunks with
  | nil =>
    intro fs s h
    simpa [applyEvents, chunksJoin] using h
  | cons c cs ih =>
    intro fs s h
    show (applyEvents (applyEvent fs (.writeTmp c)) (cs.map FsEvent.writeTmp)).tmp = _
    have htmp : (applyEvent fs (.writeTmp c)).tmp = some (s ++ c) := by
      simp [applyEvent, h]
    rw [ih _ _ htmp, chunksJoin]
    congr 1
    exact String.append_assoc s c (chunksJoin cs)

theorem applyEvents_writes_real (chunks : List String) (fs : FS) :
    (applyEvents fs (chunks.map FsEvent.writeTmp)).real = fs.real := by
  refine applyEvents_no_replace_real _ fs ?_
  intro e he
  obtain ⟨c, _, rfl⟩ := List.mem_map.mp he
  intro hcontra
  cases hcontra

/-- C2: run of `save_store` at the filesystem level: writing the
serialized collection happens entirely on the sibling temp path, and the
real `STORE_PATH` changes only at the final atomic `os.replace`. After
any prefix of the steps (a crash, or a concurrent reader's observation
point), the real path holds either its prior contents, untouched, or the
complete serialization `dumpStore items` of the full collection — never a
half-written state; and after the full run it holds exactly the complete
serialization. -/
theorem save_store_atomic_replace (fs : FS) (items : List Template)
    (chunks : List String) (hchunks : chunksJoin chunks = dumpStore items) :
    (∀ k, (applyEvents fs ((save_store_events chunks).take k)).real = fs.real
       ∨ (applyEvents fs ((save_store_events chunks).take k)).real
           = some (dumpStore items))
    ∧ (applyEvents fs (save_store_events chunks)).real = some (dumpStore items) := by
  have hopen : (applyEvent fs .openTruncTmp).tmp = some "" := rfl
  have htmp := applyEvents_writes_tmp chunks (applyEvent fs .openTruncTmp) "" hopen
  rw [hchunks] at htmp
  have hfull : (applyEvents fs (save_store_events chunks)).real
      = some (dumpStore items) := by
    show (applyEvents (applyEvent fs .openTruncTmp)
      (chunks.map FsEvent.writeTmp ++ [FsEvent.replaceTmpReal])).real = _
    rw [applyEvents, List.foldl_append]
    show (applyEvent (applyEvents (applyEvent fs .openTruncTmp)
      (chunks.map FsEvent.writeTmp)) FsEvent.replaceTmpReal).real = _
    rw [show ∀ g : FS, (applyEvent g FsEvent.replaceTmpReal).real = g.tmp
          from fun g => rfl]
    rw [htmp]
    simp
  refine ⟨?_, hfull⟩
  intro k
  rcases Nat.lt_or_ge k (save_store_events chunks).length with hk | hk
  · left
    cases k with
    | zero => rfl
    | succ n =>
      have hn : n ≤ (chunks.map FsEvent.writeTmp).length := by
        simp only [save_store_events, List.length_cons, List.length_append,
          List.length_map, List.length_nil] at hk ⊢
        omega
      have htake : (save_store_events chunks).take (n + 1)
          = FsEvent.openTruncTmp :: (chunks.map FsEvent.writeTmp).take n := by
        simp only [save_store_events, List.take_succ_cons]
        rw [List.take_append_of_le_length hn]
      rw [htake]
      refine applyEvents_no_replace_real _ fs ?_
      intro e he
      rcases List.mem_cons.mp he with rfl | he2
      · intro hcontra; cases hcontra
      · have := List.take_subset n (chunks.map FsEvent.writeTmp) he2
        obtain ⟨c, _, rfl⟩ := List.mem_map.mp this
        intro hcontra; cases hcontra
  · right
    rw [List.take_of_length_le hk]
    exact hfull

/-- Closed-form check of C2: writing the empty collection (serialized as
the two characters of an empty JSON array) over a file holding `old`:
after two of the steps the real path still holds `old`, and after the
full run it holds the complete serialization. -/
theorem save_store_atomic_replace_witness :
    ((applyEvents ⟨some "old", none⟩ ((save_store_events ["[]"]).take 2)).real
        = some "old"
      ∨ (applyEvents ⟨some "old", none⟩ ((save_store_events ["[]"]).take 2)).real
          = some (dumpStore ([] : List Template)))
    ∧ (applyEvents ⟨some "old", none⟩ (save_store_events ["[]"])).real
        = some (dumpStore ([] : List Template)) :=
  ⟨(save_store_atomic_replace ⟨some "old", none⟩ [] ["[]"] rfl).1 2,
   (save_store_atomic_replace ⟨some "old", none⟩ [] ["[]"] rfl).2⟩

end UniverApp
